import Mathlib

/-!
Verification development for the Tempo-Strike rhythm game core.

The definitions below are a shallow embedding, in Lean 4, of the gameplay
core of the repository: the chart generator (`src/constants.ts`,
`generateChart`), the per-tick note resolution loop
(`src/components/GameScene.tsx`, the `useFrame` body), and the scoring /
session-state handlers (`handleNoteHit`, `handleNoteMiss` in the App
component).  JavaScript numbers are modelled as rationals (`ℚ`), and
`Math.random()` is modelled by an explicit oracle `rng : ℕ → ℚ` consumed
in source order through an index counter.  React `useState` updates are
modelled by explicit state passing: a handler is a function
`SessionState → SessionState`, where values captured by the handler's
closure (such as the combo `multiplier` read when computing the score)
are the field values of the state the handler is applied to, and the
functional updater calls (`setX (x => ...)`) are field updates performed
in program order.  A `setTimeout(f, 0)` call is modelled by counting the
scheduled callback (field `scheduledEnd`) instead of running it.

Square roots (from `THREE.Vector3.length`, planar distances and vector
normalisation) are not rational, so every comparison of the source of the
form `sqrt e < c` (with both sides nonnegative, or with the sign made
explicit) is embedded as the algebraically equivalent squared comparison;
each such spot is noted next to the definition.
-/

/-- Difficulty selector, from `types.ts` (declared there, consumed by
`src/constants.ts` and the App component). -/
inductive Difficulty
  | easy
  | medium
  | hard
  | impossible
  deriving DecidableEq, Repr

/-- Cut directions of a note, from `types.ts`. -/
inductive CutDirection
  | up
  | down
  | left
  | right
  | any
  deriving DecidableEq, Repr

/-- Which hand must cut a note, from `types.ts`. -/
inductive HandType
  | left
  | right
  deriving DecidableEq, Repr

/-- Score tiers, from `types.ts`; the tags used throughout
`GameScene.tsx` and `handleNoteHit`. -/
inductive ScoreTier
  | PERFECT
  | GREAT
  | GOOD
  | OK
  | BAD
  | WRONG_SABER
  | GOLD_STAR
  deriving DecidableEq, Repr

/-- Game status values, from `types.ts`, as used by the App component. -/
inductive GameStatus
  | LOADING
  | IDLE
  | PLAYING
  | GAME_OVER
  | VICTORY
  deriving DecidableEq, Repr

/-- Per-difficulty configuration, from `DIFFICULTY_CONFIG` in
`src/constants.ts` (the fields the core logic reads). -/
structure DiffConfig where
  speed : ℚ
  healthDrain : ℚ
  healthGain : ℚ
  scoreMultiplier : ℚ
  deriving DecidableEq, Repr

/-- The `DIFFICULTY_CONFIG` table of `src/constants.ts`. -/
def DIFFICULTY_CONFIG : Difficulty → DiffConfig
  | .easy => { speed := 10, healthDrain := 8, healthGain := 6, scoreMultiplier := 4/5 }
  | .medium => { speed := 14, healthDrain := 12, healthGain := 4, scoreMultiplier := 1 }
  | .hard => { speed := 18, healthDrain := 18, healthGain := 3, scoreMultiplier := 3/2 }
  | .impossible => { speed := 38, healthDrain := 51, healthGain := 1/5, scoreMultiplier := 8 }

/-- Equipped-item perks, from the `ShopItem.perks` shape in
`src/constants.ts` (`SABER_CATALOG`). -/
structure Perks where
  scoreMult : ℚ
  coinMult : ℚ
  hitWindow : ℚ
  deriving DecidableEq, Repr

/-- A note, from the `NoteData` interface of `types.ts` as populated by
`generateChart` and mutated by the `GameScene` tick.  `lineIndex` and
`lineLayer` are integers produced by `Math.floor`. -/
structure NoteData where
  id : String
  time : ℚ
  lineIndex : ℤ
  lineLayer : ℤ
  type : HandType
  cutDirection : CutDirection
  isGoldStar : Bool := false
  hit : Bool := false
  missed : Bool := false
  hitTime : Option ℚ := none
  deriving DecidableEq, Repr

-- Game world constants from `src/constants.ts`.

/-- The player plane `PLAYER_Z = 0` from `src/constants.ts`. -/
def PLAYER_Z : ℚ := 0

/-- The miss plane `MISS_Z = 5` from `src/constants.ts`. -/
def MISS_Z : ℚ := 5

/-- The spawn plane `SPAWN_Z = -30` from `src/constants.ts`. -/
def SPAWN_Z : ℚ := -30

/-- The beat period `BEAT_TIME = 60 / SONG_BPM` with `SONG_BPM = 140`,
from `src/constants.ts`. -/
def BEAT_TIME : ℚ := 60 / 140

/-- The lane abscissas `LANE_X_POSITIONS` (with `LANE_WIDTH = 0.8`),
from `src/constants.ts`. -/
def LANE_X_POSITIONS : List ℚ := [-6/5, -2/5, 2/5, 6/5]

/-- The layer ordinates `LAYER_Y_POSITIONS`, from `src/constants.ts`. -/
def LAYER_Y_POSITIONS : List ℚ := [4/5, 8/5, 12/5]

/-- JavaScript `Math.round` on a rational: round half away from zero is
`Math.round`'s behaviour only for halves, which round toward positive
infinity; `Math.round x = ⌊x + 1/2⌋` for every finite `x`. -/
def jsRound (q : ℚ) : ℤ := ⌊q + 1/2⌋

/-- JavaScript `Math.floor` on a rational. -/
def jsFloor (q : ℚ) : ℤ := ⌊q⌋

/-- Session state of the App component in `src/unnamed/part_003`: the
`useState` cells the gameplay handlers read and write, plus
`scheduledEnd`, which counts the `setTimeout(() => endGame(false), 0)`
calls issued so far (the deferred failure callbacks). -/
structure SessionState where
  score : ℚ
  combo : ℤ
  multiplier : ℚ
  health : ℚ
  coins : ℚ
  xp : ℚ
  status : GameStatus
  scheduledEnd : ℕ
  deriving DecidableEq, Repr

/-- Base rewards per tier: the `switch (tier)` block of `handleNoteHit`
(`src/unnamed/part_003`), returning `(points, coinReward, healthBonus)`. -/
def tierBase (cfg : DiffConfig) : ScoreTier → ℚ × ℚ × ℚ
  | .PERFECT => (150, 15, cfg.healthGain)
  | .GREAT => (100, 10, cfg.healthGain * (8/10))
  | .GOOD => (70, 5, cfg.healthGain * (5/10))
  | .OK => (40, 2, cfg.healthGain * (2/10))
  | .BAD => (10, 1, 0)
  | .WRONG_SABER => (0, 0, -5)
  | .GOLD_STAR => (1000, 150, 50)

/-- The multiplier step function applied inside `setCombo` in
`handleNoteHit`: `newCombo > 30 → 8`, `> 20 → 4`, `> 10 → 2`, else the
multiplier is reset to 1. -/
def multiplierOf (newCombo : ℤ) : ℚ :=
  if newCombo > 30 then 8
  else if newCombo > 20 then 4
  else if newCombo > 10 then 2
  else 1

/-- The `points` value of `handleNoteHit` after the
`if (points > 0)` scaling block: the base points scaled by
`equippedItem.perks.scoreMult * diffConfig.scoreMultiplier` and rounded,
but only when the base points are positive. -/
def hitPoints (perks : Perks) (cfg : DiffConfig) (tier : ScoreTier) : ℚ :=
  if (tierBase cfg tier).1 > 0 then
    (jsRound ((tierBase cfg tier).1 * perks.scoreMult * cfg.scoreMultiplier) : ℚ)
  else (tierBase cfg tier).1

/-- The `coinReward` value of `handleNoteHit` after the scaling block;
the guard is on the (base) `points`, as in the source. -/
def hitCoins (perks : Perks) (cfg : DiffConfig) (tier : ScoreTier) : ℚ :=
  if (tierBase cfg tier).1 > 0 then
    (jsRound ((tierBase cfg tier).2.1 * perks.coinMult * cfg.scoreMultiplier) : ℚ)
  else (tierBase cfg tier).2.1

/-- The `handleNoteHit` handler of the App component
(`src/unnamed/part_003`): base rewards per tier, perk and difficulty
scaling applied only when `points > 0`, combo/multiplier transition, and
the score/health/coins/xp updates.  The `multiplier` factor in the score
update is the closure-captured value, i.e. the state's multiplier before
this call's own `setMultiplier`. -/
def handleNoteHit (perks : Perks) (cfg : DiffConfig) (s : SessionState)
    (tier : ScoreTier) : SessionState :=
  let healthBonus := (tierBase cfg tier).2.2
  let points : ℚ := hitPoints perks cfg tier
  let coinReward : ℚ := hitCoins perks cfg tier
  let comboMult : ℤ × ℚ :=
    if tier ≠ ScoreTier.BAD ∧ tier ≠ ScoreTier.WRONG_SABER then
      (s.combo + 1, multiplierOf (s.combo + 1))
    else
      (max 0 (s.combo - 5), max 1 (s.multiplier / 2))
  { s with
    combo := comboMult.1
    multiplier := comboMult.2
    score := s.score + points * s.multiplier
    health := min 100 (max 0 (s.health + healthBonus))
    coins := s.coins + coinReward
    xp := s.xp + points / 5 }

/-- The `handleNoteMiss` handler of the App component
(`src/unnamed/part_003`): combo and multiplier reset, then the health
drain; when the new health is `≤ 0` the handler clamps health to 0 and
schedules `endGame(false)` through a zero-delay timeout (counted in
`scheduledEnd`) instead of calling it synchronously. -/
def handleNoteMiss (cfg : DiffConfig) (s : SessionState) : SessionState :=
  let s1 := { s with combo := 0, multiplier := (1 : ℚ) }
  let newHealth := s1.health - cfg.healthDrain
  if newHealth ≤ 0 then
    { s1 with health := 0, scheduledEnd := s1.scheduledEnd + 1 }
  else
    { s1 with health := newHealth }

/-- The `endGame` function of the App component: flips the game status
and, on victory, adds the difficulty-scaled XP bonus. -/
def endGame (cfg : DiffConfig) (victory : Bool) (s : SessionState) : SessionState :=
  let s1 := { s with status := if victory then GameStatus.VICTORY else GameStatus.GAME_OVER }
  if victory then { s1 with xp := s1.xp + 500 * cfg.scoreMultiplier } else s1

/-- A 3D vector with rational coordinates, modelling `THREE.Vector3`. -/
structure Vec3 where
  x : ℚ
  y : ℚ
  z : ℚ
  deriving DecidableEq, Repr

/-- Hand state published by `useMediaPipe` and read by the `GameScene`
tick: nullable positions, always-present velocities. -/
structure HandPositions where
  left : Option Vec3
  right : Option Vec3
  leftVelocity : Vec3
  rightVelocity : Vec3
  deriving DecidableEq, Repr

/-- The `DIRECTION_VECTORS` table of `src/constants.ts`. -/
def DIRECTION_VECTORS : CutDirection → Vec3
  | .up => ⟨0, 1, 0⟩
  | .down => ⟨0, -1, 0⟩
  | .left => ⟨-1, 0, 0⟩
  | .right => ⟨1, 0, 0⟩
  | .any => ⟨0, 0, 0⟩

/-- Dot product of two vectors (`THREE.Vector3.dot`). -/
def dot (a b : Vec3) : ℚ := a.x * b.x + a.y * b.y + a.z * b.z

/-- Squared length of a vector; the source uses `THREE.Vector3.length`
(the square root of this) only inside comparisons to nonnegative
constants, which are embedded squared. -/
def lengthSq (v : Vec3) : ℚ := v.x ^ 2 + v.y ^ 2 + v.z ^ 2

/-- Squared planar (x/y) distance from a hand position to a note
position; the source computes `distXY = sqrt(dx^2 + dy^2)` and only
compares it against radii, embedded here squared. -/
def planarDistSq (p notePos : Vec3) : ℚ :=
  (p.x - notePos.x) ^ 2 + (p.y - notePos.y) ^ 2

/-- Whether a (possibly absent) hand reaches the note: the source's
`distXY < hitRadius` with a null check.  Over `ℚ` this is the exact
equivalent `0 ≤ hitRadius ∧ distXY² < hitRadius²` (for `hitRadius < 0`
the source comparison is false since `distXY ≥ 0`). -/
def reaches (handPos : Option Vec3) (notePos : Vec3) (hitRadius : ℚ) : Bool :=
  match handPos with
  | none => false
  | some p => decide (0 ≤ hitRadius ∧ planarDistSq p notePos < hitRadius ^ 2)

/-- Lane abscissa lookup `LANE_X_POSITIONS[note.lineIndex]`.  Indexes the
source array; out-of-range indices (which `generateChart` never
produces) default to 0. -/
def laneX (lineIndex : ℤ) : ℚ := LANE_X_POSITIONS.getD lineIndex.toNat 0

/-- Layer ordinate lookup `LAYER_Y_POSITIONS[note.lineLayer]`, with the
same out-of-range convention as `laneX`. -/
def layerY (lineLayer : ℤ) : ℚ := LAYER_Y_POSITIONS.getD lineLayer.toNat 0

/-- The tier computation for a correct-hand hit on a normal note, from
`GameScene.tsx` (`useFrame`, the `hitCorrect` branch).  Source
comparisons on square roots are embedded squared, exactly:
`speed < 0.3 ↔ speedSq < 9/100`; in the non-`BAD` branches `speed > 0`,
so `angleScore = (v·d)/|v| < -1/5 ↔ v·d < 0 ∧ 25 (v·d)² > speedSq` and
`angleScore > 1/2 ↔ v·d > 0 ∧ 4 (v·d)² > speedSq`; and with
`hitRadius > 0` (true at every call site, since the hand reached the
note), `precision = max 0 (1 - distXY/hitRadius) > 7/10 ↔
100 distSq < 9 hitRadius²`, `> 1/2 ↔ 4 distSq < hitRadius²`,
`> 3/10 ↔ 100 distSq < 49 hitRadius²`.  For `cutDirection = ANY` the
source keeps `angleScore = 1.0`, so the angle tests are `false` (for
`BAD`) and `true` (for `PERFECT`). -/
def computeTier (isUltimate : Bool) (cutDirection : CutDirection) (handVel : Vec3)
    (distSq hitRadius : ℚ) : ScoreTier :=
  if isUltimate then ScoreTier.PERFECT
  else
    let speedSq := lengthSq handVel
    let a := dot handVel (DIRECTION_VECTORS cutDirection)
    if speedSq < (3/10) ^ 2 then ScoreTier.BAD
    else if cutDirection ≠ CutDirection.any ∧ (a < 0 ∧ 25 * a ^ 2 > speedSq) then
      ScoreTier.BAD
    else if (100 * distSq < 9 * hitRadius ^ 2) ∧ speedSq > 2 ^ 2 ∧
        (cutDirection = CutDirection.any ∨ (a > 0 ∧ 4 * a ^ 2 > speedSq)) then
      ScoreTier.PERFECT
    else if (4 * distSq < hitRadius ^ 2) ∧ speedSq > 1 then ScoreTier.GREAT
    else if 100 * distSq < 49 * hitRadius ^ 2 then ScoreTier.GOOD
    else ScoreTier.OK

/-- Outcome of processing one note in one tick of the `useFrame` loop. -/
inductive NoteResolution
  | untouched
  | missed
  | hit (tier : ScoreTier)
  deriving DecidableEq, Repr

/-- Travel-axis position of a note at a song time: the source's
`currentZ = PLAYER_Z - (note.time - time) * noteSpeed`. -/
def noteZ (noteSpeed time : ℚ) (note : NoteData) : ℚ :=
  PLAYER_Z - (note.time - time) * noteSpeed

/-- World position of a note at a song time, from its lane/layer slot
and travel-axis position. -/
def noteWorldPos (noteSpeed time : ℚ) (note : NoteData) : Vec3 :=
  ⟨laneX note.lineIndex, layerY note.lineLayer, noteZ noteSpeed time note⟩

/-- The hit radius `1.2 * equippedSaber.perks.hitWindow`. -/
def hitRadiusOf (perks : Perks) : ℚ := (6/5) * perks.hitWindow

/-- The position of the hand matching `note.type` (`correctHandPos`). -/
def correctHand (hands : HandPositions) : HandType → Option Vec3
  | .left => hands.left
  | .right => hands.right

/-- The position of the hand opposite `note.type` (`wrongHandPos`). -/
def wrongHand (hands : HandPositions) : HandType → Option Vec3
  | .left => hands.right
  | .right => hands.left

/-- The velocity of the hand matching `note.type` (`handVel`). -/
def correctVel (hands : HandPositions) : HandType → Vec3
  | .left => hands.leftVelocity
  | .right => hands.rightVelocity

/-- One iteration of the per-note loop in `GameScene.tsx` `useFrame`
(the body from `if (note.hit || note.missed) continue` through the
normal-note logic), deciding how the note resolves this tick. -/
def resolveNote (perks : Perks) (isUltimate : Bool) (hands : HandPositions)
    (noteSpeed time : ℚ) (note : NoteData) : NoteResolution :=
  if note.hit || note.missed then .untouched
  else
    let currentZ := noteZ noteSpeed time note
    if currentZ > MISS_Z then .missed
    else
      let zWindow := (5/2) * perks.hitWindow
      if currentZ > PLAYER_Z - zWindow ∧ currentZ < PLAYER_Z + zWindow * (1/2) then
        let notePos : Vec3 := noteWorldPos noteSpeed time note
        let hitRadius := hitRadiusOf perks
        let hitCorrect := reaches (correctHand hands note.type) notePos hitRadius
        let hitWrong := !hitCorrect && reaches (wrongHand hands note.type) notePos hitRadius
        if note.isGoldStar then
          if hitCorrect || hitWrong then .hit ScoreTier.GOLD_STAR else .untouched
        else if hitCorrect then
          match correctHand hands note.type with
          | some p =>
            .hit (computeTier isUltimate note.cutDirection (correctVel hands note.type)
              (planarDistSq p notePos) hitRadius)
          | none => .untouched
        else if hitWrong then .hit ScoreTier.WRONG_SABER
        else .untouched
      else .untouched

/-- Flag mutation performed by the loop on resolution: a miss sets
`missed`; a hit sets `hit` and stamps `hitTime` with the current song
time. -/
def applyResolution (time : ℚ) (note : NoteData) : NoteResolution → NoteData
  | .untouched => note
  | .missed => { note with missed := true }
  | .hit _ => { note with hit := true, hitTime := some time }

/-- Everything one tick reads that can vary between ticks: perks and
ultimate flag of the equipped saber, the published hand snapshot, the
note speed, and the current song time. -/
structure TickEnv where
  perks : Perks
  isUltimate : Bool
  hands : HandPositions
  noteSpeed : ℚ
  time : ℚ

/-- Processing of a single note by one tick: resolution followed by the
flag mutation. -/
def tickNote (env : TickEnv) (note : NoteData) : NoteData :=
  applyResolution env.time note
    (resolveNote env.perks env.isUltimate env.hands env.noteSpeed env.time note)

/-- The per-note resolution invariant of the spec: never both `hit` and
`missed`, and `hitTime` is set exactly when `hit` is. -/
def NoteInvariant (n : NoteData) : Prop :=
  ¬(n.hit = true ∧ n.missed = true) ∧ (n.hitTime.isSome = true ↔ n.hit = true)

/-- Per-difficulty beat skip probability, from the `switch (difficulty)`
at the top of `generateChart` (`src/constants.ts`). -/
def skipRate : Difficulty → ℚ
  | .easy => 5/10
  | .medium => 2/10
  | .hard => 5/100
  | .impossible => 0

/-- Per-difficulty double-note probability, from the same `switch`. -/
def doubleRate : Difficulty → ℚ
  | .easy => 5/100
  | .medium => 15/100
  | .hard => 3/10
  | .impossible => 9/10

/-- Accumulator of the `generateChart` loop: the emitted notes in
emission order, the `idCount` and `generatedNoteCount` counters, and the
index of the next `Math.random()` draw from the oracle. -/
structure GenState where
  notes : List NoteData
  idCount : ℕ
  generatedNoteCount : ℕ
  randIdx : ℕ
  deriving Repr

/-- Draw the next oracle value, advancing the draw index; models one
`Math.random()` call. -/
def takeRand (rng : ℕ → ℚ) (st : GenState) : ℚ × GenState :=
  (rng st.randIdx, { st with randIdx := st.randIdx + 1 })

/-- Append one emitted note (`notes.push`). -/
def pushNote (st : GenState) (n : NoteData) : GenState :=
  { st with notes := st.notes ++ [n] }

/-- The IMPOSSIBLE-only sub-beat block of `generateChart`: the 8th-note
draw and the two 16th-note burst draws, each consuming its conditional
draw and, when emitting, the lane/layer (and for the first, hand) draws
in source order. -/
def subBeatNotes (rng : ℕ → ℚ) (i : ℕ) (st : GenState) : GenState :=
  let p1 := takeRand rng st
  let st2 :=
    if p1.1 < 9/10 then
      let rl := takeRand rng p1.2
      let ry := takeRand rng rl.2
      let rt := takeRand rng ry.2
      pushNote { rt.2 with idCount := rt.2.idCount + 1 }
        { id := "note-sub-1-" ++ toString rt.2.idCount
          time := (i : ℚ) * BEAT_TIME + BEAT_TIME / 2
          lineIndex := jsFloor (rl.1 * 4)
          lineLayer := jsFloor (ry.1 * 3)
          type := if rt.1 > 1/2 then HandType.left else HandType.right
          cutDirection := CutDirection.any }
    else p1.2
  let p2 := takeRand rng st2
  let st3 :=
    if p2.1 < 4/10 then
      let rl := takeRand rng p2.2
      let ry := takeRand rng rl.2
      pushNote { ry.2 with idCount := ry.2.idCount + 1 }
        { id := "note-sub-2-" ++ toString ry.2.idCount
          time := (i : ℚ) * BEAT_TIME + BEAT_TIME * (25/100)
          lineIndex := jsFloor (rl.1 * 4)
          lineLayer := jsFloor (ry.1 * 3)
          type := HandType.left
          cutDirection := CutDirection.any }
    else p2.2
  let p3 := takeRand rng st3
  if p3.1 < 4/10 then
    let rl := takeRand rng p3.2
    let ry := takeRand rng rl.2
    pushNote { ry.2 with idCount := ry.2.idCount + 1 }
      { id := "note-sub-3-" ++ toString ry.2.idCount
        time := (i : ℚ) * BEAT_TIME + BEAT_TIME * (75/100)
        lineIndex := jsFloor (rl.1 * 4)
        lineLayer := jsFloor (ry.1 * 3)
        type := HandType.right
        cutDirection := CutDirection.any }
  else p3.2

/-- The gold-star emission of `generateChart`, reached when the
incremented `generatedNoteCount` is a multiple of 50: a single
mid-height, centre-lane, any-direction gold-star note, after which the
beat ends (`continue`). -/
def goldBeat (rng : ℕ → ℚ) (i : ℕ) (st : GenState) : GenState :=
  let rl := takeRand rng st
  pushNote { rl.2 with idCount := rl.2.idCount + 1 }
    { id := "gold-" ++ toString rl.2.idCount
      time := (i : ℚ) * BEAT_TIME
      lineIndex := if rl.1 > 1/2 then 1 else 2
      lineLayer := 1
      type := HandType.left
      cutDirection := CutDirection.any
      isGoldStar := true }

/-- The phase-logic tail of the `generateChart` loop body: the EASY
simplification, then the phase 0/2 alternation, the phase 1 streams and
the phase 3 complexity block, with oracle draws in source order. -/
def mainBeatNotes (d : Difficulty) (rng : ℕ → ℚ) (i : ℕ) (st : GenState) : GenState :=
  if d = Difficulty.easy then
    if i % 2 ≠ 0 then st
    else
      let isLeft := i % 4 = 0
      pushNote { st with idCount := st.idCount + 1 }
        { id := "note-" ++ toString st.idCount
          time := (i : ℚ) * BEAT_TIME
          lineIndex := if isLeft then 1 else 2
          lineLayer := 0
          type := if isLeft then HandType.left else HandType.right
          cutDirection := CutDirection.any }
  else
    let phase := (i / 16) % 4
    if phase = 0 ∨ phase = 2 then
      let isLeft := i % 2 = 0
      let rc := takeRand rng st
      pushNote { rc.2 with idCount := rc.2.idCount + 1 }
        { id := "note-" ++ toString rc.2.idCount
          time := (i : ℚ) * BEAT_TIME
          lineIndex := if isLeft then 1 else 2
          lineLayer := 0
          type := if isLeft then HandType.left else HandType.right
          cutDirection := if rc.1 > 1/2 then CutDirection.down else CutDirection.any }
    else if phase = 1 then
      if d = Difficulty.hard ∨ d = Difficulty.impossible ∨ i % 2 = 0 then
        let isLeft := i % 2 = 0
        pushNote { st with idCount := st.idCount + 1 }
          { id := "note-" ++ toString st.idCount
            time := (i : ℚ) * BEAT_TIME
            lineIndex := if isLeft then 0 else 3
            lineLayer := 0
            type := if isLeft then HandType.left else HandType.right
            cutDirection := CutDirection.down }
      else st
    else
      let rd := takeRand rng st
      if rd.1 < doubleRate d then
        let st1 := pushNote { rd.2 with idCount := rd.2.idCount + 1 }
          { id := "note-" ++ toString rd.2.idCount
            time := (i : ℚ) * BEAT_TIME
            lineIndex := 1
            lineLayer := 1
            type := HandType.left
            cutDirection := CutDirection.left }
        pushNote { st1 with idCount := st1.idCount + 1 }
          { id := "note-" ++ toString st1.idCount
            time := (i : ℚ) * BEAT_TIME
            lineIndex := 2
            lineLayer := 1
            type := HandType.right
            cutDirection := CutDirection.right }
      else
        let rl := takeRand rng rd.2
        let isLeft := rl.1 > 1/2
        let ry := takeRand rng rl.2
        pushNote { ry.2 with idCount := ry.2.idCount + 1 }
          { id := "note-" ++ toString ry.2.idCount
            time := (i : ℚ) * BEAT_TIME
            lineIndex := if isLeft then 2 else 1
            lineLayer := if ry.1 > 6/10 then 1 else 0
            type := if isLeft then HandType.left else HandType.right
            cutDirection := CutDirection.any }

/-- One iteration of the `generateChart` beat loop for beat `i`: the
skip draw, the IMPOSSIBLE sub-beat block, the `generatedNoteCount`
increment with the gold-star check, and otherwise the phase logic. -/
def genBeat (d : Difficulty) (rng : ℕ → ℚ) (i : ℕ) (st : GenState) : GenState :=
  let rs := takeRand rng st
  if rs.1 < skipRate d then rs.2
  else
    let st1 := if d = Difficulty.impossible then subBeatNotes rng i rs.2 else rs.2
    let st2 := { st1 with generatedNoteCount := st1.generatedNoteCount + 1 }
    if st2.generatedNoteCount % 50 = 0 then goldBeat rng i st2
    else mainBeatNotes d rng i st2

/-- The emitted note list of `generateChart` before the final sort, in
emission order: the loop `for (i = 4; i < 300; i++)` folded over the
initial empty accumulator. -/
def chartNotes (d : Difficulty) (rng : ℕ → ℚ) : List NoteData :=
  ((List.range' 4 296).foldl (fun st i => genBeat d rng i st)
    { notes := [], idCount := 0, generatedNoteCount := 0, randIdx := 0 }).notes

/-- The `generateChart` function of `src/constants.ts`: the emitted
notes, then `notes.sort((a, b) => a.time - b.time)`. -/
def generateChart (d : Difficulty) (rng : ℕ → ℚ) : List NoteData :=
  (chartNotes d rng).mergeSort (fun a b => a.time ≤ b.time)

/-- A constant oracle whose every draw is one half; one concrete outcome
of the `Math.random()` sequence, used to evaluate the generator on
explicit inputs. -/
def halfRng : ℕ → ℚ := fun _ => 1/2

/-- The generator state after the first 25 beats (`i = 4 .. 28`) of the
IMPOSSIBLE chart under the `halfRng` oracle. -/
def c9Prefix : GenState :=
  (List.range' 4 25).foldl (fun st i => genBeat Difficulty.impossible halfRng i st)
    { notes := [], idCount := 0, generatedNoteCount := 0, randIdx := 0 }

-- Helper lemmas

/-- Under the constant `halfRng` oracle on IMPOSSIBLE, one beat of the
generator only appends notes. -/
lemma genBeat_imp_half_extend (i : ℕ) (st : GenState) :
    ∃ l, (genBeat Difficulty.impossible halfRng i st).notes = st.notes ++ l := by
  simp only [genBeat, subBeatNotes, mainBeatNotes, goldBeat, takeRand, pushNote,
    skipRate, doubleRate, halfRng]
  norm_num
  repeat' split
  all_goals exact ⟨_, rfl⟩

/-- Folding beats under the `halfRng` oracle on IMPOSSIBLE only appends
notes. -/
lemma foldl_imp_half_extend (l : List ℕ) : ∀ st : GenState,
    ∃ tail, ((l.foldl (fun st i => genBeat Difficulty.impossible halfRng i st) st).notes
      = st.notes ++ tail) := by
  induction l with
  | nil => exact fun st => ⟨[], by simp⟩
  | cons i l ih =>
    intro st
    obtain ⟨t1, h1⟩ := genBeat_imp_half_extend i st
    obtain ⟨t2, h2⟩ := ih (genBeat Difficulty.impossible halfRng i st)
    exact ⟨t1 ++ t2, by rw [List.foldl_cons, h2, h1, List.append_assoc]⟩

set_option maxRecDepth 4000 in
/-- The 296-beat loop splits after its first 25 iterations. -/
lemma range'_4_296_split : List.range' 4 296 = List.range' 4 25 ++ List.range' 29 271 := by
  decide

set_option maxRecDepth 40000 in
unseal Rat.add Rat.mul Rat.inv Rat.sub Rat.ofScientific in
/-- The 25-beat prefix of the IMPOSSIBLE chart under `halfRng` holds
exactly 50 notes (two per beat: the sub-beat note and the phase note). -/
lemma c9Prefix_notes_length : c9Prefix.notes.length = 50 := by decide

/-- The 50th emitted note of the IMPOSSIBLE chart under `halfRng` is
already fixed by the 25-beat prefix. -/
lemma chartNotes_imp_half_get49 :
    (chartNotes Difficulty.impossible halfRng)[49]? = c9Prefix.notes[49]? := by
  obtain ⟨tail, htail⟩ := foldl_imp_half_extend (List.range' 29 271) c9Prefix
  have hsplit : chartNotes Difficulty.impossible halfRng = c9Prefix.notes ++ tail := by
    rw [chartNotes, range'_4_296_split, List.foldl_append]
    exact htail
  rw [hsplit]
  refine List.getElem?_append_left ?_
  have hlen : c9Prefix.notes.length = 50 := c9Prefix_notes_length
  omega

/-- Perks of the `default` catalog item (Standard Issue). -/
def stdPerks : Perks := { scoreMult := 1, coinMult := 1, hitWindow := 1 }

/-- Perks of the `ultimate_eudin` catalog item (Ultimate Admin Saber). -/
def ultimatePerks : Perks := { scoreMult := 3, coinMult := 3, hitWindow := 6 }

/-- Session state at the start of a play-through (`startGame`). -/
def freshSession : SessionState :=
  { score := 0, combo := 0, multiplier := 1, health := 100, coins := 0, xp := 0,
    status := GameStatus.PLAYING, scheduledEnd := 0 }

-- Claim theorems

unseal Rat.add Rat.mul Rat.inv Rat.sub Rat.ofScientific in
/-- Claim C1, counterexample.  The claim says every health-reducing
resolution that brings health to 0 triggers the failure outcome exactly
once, including penalty hits, and at most one failure callback fires for
several health-reducing events in one tick.  On the code: a WRONG_SABER
penalty hit at health 5 clamps health to 0 but schedules no failure
callback at all, and two misses in the same tick starting from health 10
on MEDIUM (drain 12) schedule the failure callback twice. -/
theorem failure_once_counterexample :
    ((handleNoteHit stdPerks (DIFFICULTY_CONFIG Difficulty.medium)
        { freshSession with health := 5 } ScoreTier.WRONG_SABER).health = 0 ∧
      (handleNoteHit stdPerks (DIFFICULTY_CONFIG Difficulty.medium)
        { freshSession with health := 5 } ScoreTier.WRONG_SABER).scheduledEnd = 0) ∧
    (handleNoteMiss (DIFFICULTY_CONFIG Difficulty.medium)
        (handleNoteMiss (DIFFICULTY_CONFIG Difficulty.medium)
          { freshSession with health := 10 })).scheduledEnd = 2 := by
  decide

/-- Claim C1 as amended: only the miss handler checks for failure.  A
miss whose drain brings health to `≤ 0` clamps health to 0 and schedules
exactly one deferred failure callback, without flipping the game status
synchronously; a miss at higher health just drains health; and
`handleNoteHit` (in particular a WRONG_SABER penalty hit) never
schedules a failure callback nor touches the game status, whatever tier
and however low health gets. -/
theorem miss_failure_scheduling (cfg : DiffConfig) (s : SessionState) :
    (s.health - cfg.healthDrain ≤ 0 →
      (handleNoteMiss cfg s).health = 0 ∧
      (handleNoteMiss cfg s).scheduledEnd = s.scheduledEnd + 1) ∧
    (0 < s.health - cfg.healthDrain →
      (handleNoteMiss cfg s).health = s.health - cfg.healthDrain ∧
      (handleNoteMiss cfg s).scheduledEnd = s.scheduledEnd) ∧
    (handleNoteMiss cfg s).status = s.status ∧
    ∀ (perks : Perks) (tier : ScoreTier),
      (handleNoteHit perks cfg s tier).scheduledEnd = s.scheduledEnd ∧
      (handleNoteHit perks cfg s tier).status = s.status := by
  refine ⟨?_, ?_, ?_, ?_⟩
  · intro h
    unfold handleNoteMiss
    rw [if_pos h]
    exact ⟨rfl, rfl⟩
  · intro h
    unfold handleNoteMiss
    rw [if_neg (by linarith)]
    exact ⟨rfl, rfl⟩
  · unfold handleNoteMiss
    by_cases h : s.health - cfg.healthDrain ≤ 0
    · rw [if_pos h]
    · rw [if_neg h]
  · intro perks tier
    exact ⟨rfl, rfl⟩

unseal Rat.add Rat.mul Rat.inv Rat.sub Rat.ofScientific in
/-- Claim C1 amended, witness at MEDIUM drain 12 and health 10. -/
theorem miss_failure_scheduling_witness :
    (handleNoteMiss (DIFFICULTY_CONFIG Difficulty.medium)
      { freshSession with health := 10 }).health = 0 ∧
    (handleNoteMiss (DIFFICULTY_CONFIG Difficulty.medium)
      { freshSession with health := 10 }).scheduledEnd = 1 :=
  (miss_failure_scheduling (DIFFICULTY_CONFIG Difficulty.medium)
    { freshSession with health := 10 }).1 (by decide)

unseal Rat.add Rat.mul Rat.inv Rat.sub Rat.ofScientific in
/-- Claim C2, counterexample.  The claim says penalty tiers (BAD and
WRONG_SABER) are never scaled by the perk and difficulty multipliers.
On the code the scaling guard is `points > 0`, and BAD has base points
10 > 0: with the Ultimate saber (scoreMult 3, coinMult 3) on IMPOSSIBLE
(scoreMultiplier 8) a BAD hit from the fresh session adds
round(10*3*8) = 240 points and round(1*3*8) = 24 coins, not the
unscaled 10 and 1. -/
theorem penalty_scaling_counterexample :
    (handleNoteHit ultimatePerks (DIFFICULTY_CONFIG Difficulty.impossible)
      freshSession ScoreTier.BAD).score = 240 ∧
    (handleNoteHit ultimatePerks (DIFFICULTY_CONFIG Difficulty.impossible)
      freshSession ScoreTier.BAD).score ≠ 10 ∧
    (handleNoteHit ultimatePerks (DIFFICULTY_CONFIG Difficulty.impossible)
      freshSession ScoreTier.BAD).coins = 24 ∧
    (handleNoteHit ultimatePerks (DIFFICULTY_CONFIG Difficulty.impossible)
      freshSession ScoreTier.BAD).coins ≠ 1 := by
  decide

/-- Claim C2 as amended: every tier with positive base points — all
tiers except WRONG_SABER, including the BAD penalty tier — has its
points scaled by `scoreMult * scoreMultiplier` and its coins by
`coinMult * scoreMultiplier` (each rounded); the scaled points are
further multiplied by the current combo multiplier when added to the
score.  Only the WRONG_SABER penalty tier (base points 0) is unscaled,
adding exactly 0 points and 0 coins. -/
theorem reward_scaling (perks : Perks) (cfg : DiffConfig) (s : SessionState)
    (tier : ScoreTier) :
    ((tierBase cfg tier).1 > 0 →
      (handleNoteHit perks cfg s tier).score
        = s.score
          + (jsRound ((tierBase cfg tier).1 * perks.scoreMult * cfg.scoreMultiplier) : ℚ)
            * s.multiplier ∧
      (handleNoteHit perks cfg s tier).coins
        = s.coins
          + (jsRound ((tierBase cfg tier).2.1 * perks.coinMult * cfg.scoreMultiplier) : ℚ)) ∧
    (tier = ScoreTier.WRONG_SABER →
      (handleNoteHit perks cfg s tier).score = s.score ∧
      (handleNoteHit perks cfg s tier).coins = s.coins) ∧
    (tier ≠ ScoreTier.WRONG_SABER → (tierBase cfg tier).1 > 0) := by
  refine ⟨?_, ?_, ?_⟩
  · intro h
    unfold handleNoteHit hitPoints hitCoins
    rw [if_pos h, if_pos h]
    exact ⟨rfl, rfl⟩
  · rintro rfl
    unfold handleNoteHit hitPoints hitCoins tierBase
    norm_num
  · intro h
    cases tier
    case WRONG_SABER => exact absurd rfl h
    all_goals norm_num [tierBase]

unseal Rat.add Rat.mul Rat.inv Rat.sub Rat.ofScientific in
/-- Claim C2 amended, witness: a BAD hit with the Ultimate saber on
IMPOSSIBLE from the fresh session. -/
theorem reward_scaling_witness :
    (handleNoteHit ultimatePerks (DIFFICULTY_CONFIG Difficulty.impossible)
      freshSession ScoreTier.BAD).score
      = freshSession.score
        + (jsRound ((tierBase (DIFFICULTY_CONFIG Difficulty.impossible) ScoreTier.BAD).1
            * ultimatePerks.scoreMult
            * (DIFFICULTY_CONFIG Difficulty.impossible).scoreMultiplier) : ℚ)
          * freshSession.multiplier ∧
    (handleNoteHit ultimatePerks (DIFFICULTY_CONFIG Difficulty.impossible)
      freshSession ScoreTier.BAD).coins
      = freshSession.coins
        + (jsRound ((tierBase (DIFFICULTY_CONFIG Difficulty.impossible) ScoreTier.BAD).2.1
            * ultimatePerks.coinMult
            * (DIFFICULTY_CONFIG Difficulty.impossible).scoreMultiplier) : ℚ) :=
  (reward_scaling ultimatePerks (DIFFICULTY_CONFIG Difficulty.impossible)
    freshSession ScoreTier.BAD).1 (by decide)

/-- Claim C6: after any non-penalty hit the multiplier is the step
function of the updated combo — bands (10,20] → 2, (20,30] → 4,
(30,∞) → 8 — and the exact boundary combos 10, 20, 30 do not yet
trigger the next tier (they give 1, 2 and 4 respectively); combo 11
gives 2, 21 gives 4, 31 gives 8. -/
theorem multiplier_thresholds :
    (∀ (perks : Perks) (cfg : DiffConfig) (s : SessionState) (tier : ScoreTier),
      tier ≠ ScoreTier.BAD → tier ≠ ScoreTier.WRONG_SABER →
      (handleNoteHit perks cfg s tier).combo = s.combo + 1 ∧
      (handleNoteHit perks cfg s tier).multiplier = multiplierOf (s.combo + 1)) ∧
    (∀ c : ℤ, 10 < c → c ≤ 20 → multiplierOf c = 2) ∧
    (∀ c : ℤ, 20 < c → c ≤ 30 → multiplierOf c = 4) ∧
    (∀ c : ℤ, 30 < c → multiplierOf c = 8) ∧
    multiplierOf 11 = 2 ∧ multiplierOf 21 = 4 ∧ multiplierOf 31 = 8 ∧
    multiplierOf 10 = 1 ∧ multiplierOf 20 = 2 ∧ multiplierOf 30 = 4 := by
  refine ⟨?_, ?_, ?_, ?_, by decide, by decide, by decide, by decide, by decide, by decide⟩
  · intro perks cfg s tier h1 h2
    unfold handleNoteHit
    rw [if_pos ⟨h1, h2⟩]
    exact ⟨rfl, rfl⟩
  · intro c h1 h2
    unfold multiplierOf
    rw [if_neg (by omega), if_neg (by omega), if_pos (by omega)]
  · intro c h1 h2
    unfold multiplierOf
    rw [if_neg (by omega), if_pos (by omega)]
  · intro c h1
    unfold multiplierOf
    rw [if_pos (by omega)]

/-- Claim C6, witness: a PERFECT hit at combo 10 with multiplier 1
raises the combo to 11 and the multiplier to 2. -/
theorem multiplier_thresholds_witness :
    (handleNoteHit stdPerks (DIFFICULTY_CONFIG Difficulty.medium)
      { freshSession with combo := 10 } ScoreTier.PERFECT).combo = 10 + 1 ∧
    (handleNoteHit stdPerks (DIFFICULTY_CONFIG Difficulty.medium)
      { freshSession with combo := 10 } ScoreTier.PERFECT).multiplier
      = multiplierOf (10 + 1) :=
  multiplier_thresholds.1 stdPerks (DIFFICULTY_CONFIG Difficulty.medium)
    { freshSession with combo := 10 } ScoreTier.PERFECT (by decide) (by decide)

/-- Claim C10: the points a hit adds to the score are multiplied by the
multiplier in effect before that hit's own combo/multiplier update, and
the updated multiplier (the step function of the new combo) only
applies to the next hit's score. -/
theorem score_uses_pre_hit_multiplier (perks : Perks) (cfg : DiffConfig)
    (s : SessionState) (tier tier2 : ScoreTier)
    (h1 : tier ≠ ScoreTier.BAD) (h2 : tier ≠ ScoreTier.WRONG_SABER) :
    (handleNoteHit perks cfg s tier).score
      = s.score + hitPoints perks cfg tier * s.multiplier ∧
    (handleNoteHit perks cfg s tier).multiplier = multiplierOf (s.combo + 1) ∧
    (handleNoteHit perks cfg (handleNoteHit perks cfg s tier) tier2).score
      = (handleNoteHit perks cfg s tier).score
        + hitPoints perks cfg tier2 * multiplierOf (s.combo + 1) := by
  refine ⟨rfl, ?_, ?_⟩
  · unfold handleNoteHit
    rw [if_pos ⟨h1, h2⟩]
  · show (handleNoteHit perks cfg s tier).score
        + hitPoints perks cfg tier2 * (handleNoteHit perks cfg s tier).multiplier
      = _
    unfold handleNoteHit
    rw [if_pos ⟨h1, h2⟩]

unseal Rat.add Rat.mul Rat.inv Rat.sub Rat.ofScientific in
/-- Claim C10, witness: at combo 10 and multiplier 1, the hit that
raises the combo to 11 is still scored with multiplier 1; the next hit
is scored with the stepped-up multiplier 2. -/
theorem score_uses_pre_hit_multiplier_witness :
    (handleNoteHit stdPerks (DIFFICULTY_CONFIG Difficulty.medium)
      { freshSession with combo := 10 } ScoreTier.PERFECT).score
      = ({ freshSession with combo := 10 } : SessionState).score
        + hitPoints stdPerks (DIFFICULTY_CONFIG Difficulty.medium) ScoreTier.PERFECT
          * ({ freshSession with combo := 10 } : SessionState).multiplier ∧
    (handleNoteHit stdPerks (DIFFICULTY_CONFIG Difficulty.medium)
      { freshSession with combo := 10 } ScoreTier.PERFECT).multiplier
      = multiplierOf (10 + 1) ∧
    (handleNoteHit stdPerks (DIFFICULTY_CONFIG Difficulty.medium)
      (handleNoteHit stdPerks (DIFFICULTY_CONFIG Difficulty.medium)
        { freshSession with combo := 10 } ScoreTier.PERFECT) ScoreTier.PERFECT).score
      = (handleNoteHit stdPerks (DIFFICULTY_CONFIG Difficulty.medium)
          { freshSession with combo := 10 } ScoreTier.PERFECT).score
        + hitPoints stdPerks (DIFFICULTY_CONFIG Difficulty.medium) ScoreTier.PERFECT
          * multiplierOf (10 + 1) :=
  score_uses_pre_hit_multiplier stdPerks (DIFFICULTY_CONFIG Difficulty.medium)
    { freshSession with combo := 10 } ScoreTier.PERFECT ScoreTier.PERFECT
    (by decide) (by decide)

/-- A resolved note is skipped by the tick loop (`continue`), leaving it
unchanged. -/
lemma tickNote_resolved (env : TickEnv) (n : NoteData)
    (h : (n.hit || n.missed) = true) : tickNote env n = n := by
  unfold tickNote resolveNote
  rw [if_pos h]
  rfl

/-- One tick preserves the per-note resolution invariant. -/
lemma tickNote_invariant (env : TickEnv) (n : NoteData)
    (hinv : NoteInvariant n) : NoteInvariant (tickNote env n) := by
  by_cases h : (n.hit || n.missed) = true
  · rw [tickNote_resolved env n h]
    exact hinv
  · have hh : n.hit = false ∧ n.missed = false := by
      constructor <;> (revert h; cases n.hit <;> cases n.missed <;> simp)
    unfold tickNote
    cases resolveNote env.perks env.isUltimate env.hands env.noteSpeed env.time n with
    | untouched => exact hinv
    | missed =>
      refine ⟨by simp [applyResolution, hh.1], ?_⟩
      simp only [applyResolution]
      exact hinv.2
    | hit t =>
      refine ⟨by simp [applyResolution, hh.2], ?_⟩
      simp [applyResolution]

/-- Folding ticks preserves the per-note resolution invariant. -/
lemma foldl_tickNote_invariant (envs : List TickEnv) : ∀ n : NoteData,
    NoteInvariant n → NoteInvariant (envs.foldl (fun m e => tickNote e m) n) := by
  induction envs with
  | nil => exact fun n h => h
  | cons e es ih =>
    intro n h
    rw [List.foldl_cons]
    exact ih _ (tickNote_invariant e n h)

/-- Claim C3: a note resolves at most once across the ticks of a
session.  A note already resolved is left untouched by a tick (so its
flags and `hitTime` never change again); one tick preserves the
invariant that `hit` and `missed` are never both set and that `hitTime`
is set exactly when `hit` is; and starting from a freshly generated note
(both flags clear, no `hitTime`), the invariant holds after any
sequence of ticks, whatever hands, perks, speed and times each tick
reads. -/
theorem note_single_resolution :
    (∀ (env : TickEnv) (n : NoteData), (n.hit || n.missed) = true → tickNote env n = n) ∧
    (∀ (env : TickEnv) (n : NoteData), NoteInvariant n → NoteInvariant (tickNote env n)) ∧
    (∀ (envs : List TickEnv) (n : NoteData),
      n.hit = false → n.missed = false → n.hitTime = none →
      NoteInvariant (envs.foldl (fun m e => tickNote e m) n)) := by
  refine ⟨tickNote_resolved, tickNote_invariant, ?_⟩
  intro envs n h1 h2 h3
  exact foldl_tickNote_invariant envs n ⟨by simp [h1], by simp [h1, h3]⟩

/-- Claim C3, witness: a note already hit is untouched by a concrete
tick. -/
theorem note_single_resolution_witness :
    tickNote
      { perks := stdPerks, isUltimate := false,
        hands := { left := none, right := none,
                   leftVelocity := ⟨0, 0, 0⟩, rightVelocity := ⟨0, 0, 0⟩ },
        noteSpeed := 14, time := 1 }
      { id := "note-0", time := 0, lineIndex := 1, lineLayer := 0,
        type := HandType.left, cutDirection := CutDirection.any,
        hit := true, missed := false, hitTime := some 0 }
      = { id := "note-0", time := 0, lineIndex := 1, lineLayer := 0,
          type := HandType.left, cutDirection := CutDirection.any,
          hit := true, missed := false, hitTime := some 0 } :=
  note_single_resolution.1
    { perks := stdPerks, isUltimate := false,
      hands := { left := none, right := none,
                 leftVelocity := ⟨0, 0, 0⟩, rightVelocity := ⟨0, 0, 0⟩ },
      noteSpeed := 14, time := 1 }
    { id := "note-0", time := 0, lineIndex := 1, lineLayer := 0,
      type := HandType.left, cutDirection := CutDirection.any,
      hit := true, missed := false, hitTime := some 0 }
    (by decide)

/-- Claim C4: for every difficulty and every outcome of the random
draws, the chart returned by `generateChart` is non-decreasing in
`time` — the final sort merges the out-of-order sub-beat burst notes
back into time order. -/
theorem generateChart_time_sorted (d : Difficulty) (rng : ℕ → ℚ) :
    (generateChart d rng).Pairwise (fun a b => a.time ≤ b.time) := by
  have h := @List.sorted_mergeSort NoteData
    (fun a b : NoteData => decide (a.time ≤ b.time))
    (fun a b c h₁ h₂ => by
      simp only [decide_eq_true_eq] at h₁ h₂ ⊢
      exact le_trans h₁ h₂)
    (fun a b => by simpa using le_total a.time b.time)
    (chartNotes d rng)
  simpa [generateChart, List.Sorted] using h

/-- Claim C5: an active unresolved note whose travel-axis position is
past the miss plane resolves as missed this tick, before and instead of
any hit test — whatever the hands, perks, or ultimate flag, so also
when a hand is inside the hit radius at that moment. -/
theorem miss_plane_priority (perks : Perks) (isUlt : Bool) (hands : HandPositions)
    (noteSpeed time : ℚ) (note : NoteData)
    (h1 : note.hit = false) (h2 : note.missed = false)
    (h3 : noteZ noteSpeed time note > MISS_Z) :
    resolveNote perks isUlt hands noteSpeed time note = NoteResolution.missed := by
  unfold resolveNote
  rw [if_neg (by simp [h1, h2]), if_pos h3]

unseal Rat.add Rat.mul Rat.inv Rat.sub Rat.ofScientific in
/-- Claim C5, witness: a note one second past its target time at speed
14 sits at z = 14 > 5 and is resolved missed, although the left hand is
exactly at the note's lane/layer position. -/
theorem miss_plane_priority_witness :
    resolveNote stdPerks false
      { left := some ⟨-2/5, 4/5, 14⟩, right := none,
        leftVelocity := ⟨0, -3, 0⟩, rightVelocity := ⟨0, 0, 0⟩ }
      14 1
      { id := "note-0", time := 0, lineIndex := 1, lineLayer := 0,
        type := HandType.left, cutDirection := CutDirection.any }
      = NoteResolution.missed :=
  miss_plane_priority stdPerks false
    { left := some ⟨-2/5, 4/5, 14⟩, right := none,
      leftVelocity := ⟨0, -3, 0⟩, rightVelocity := ⟨0, 0, 0⟩ }
    14 1
    { id := "note-0", time := 0, lineIndex := 1, lineLayer := 0,
      type := HandType.left, cutDirection := CutDirection.any }
    (by decide) (by decide) (by decide)

/-- Claim C7: an active unresolved gold-star note inside the hit window
resolves as a GOLD_STAR hit as soon as either hand is within the hit
radius — for every hand velocity, cut direction and required hand. -/
theorem gold_star_any_hand (perks : Perks) (isUlt : Bool) (hands : HandPositions)
    (noteSpeed time : ℚ) (note : NoteData)
    (h1 : note.hit = false) (h2 : note.missed = false) (hg : note.isGoldStar = true)
    (hz1 : ¬(noteZ noteSpeed time note > MISS_Z))
    (hz2 : noteZ noteSpeed time note > PLAYER_Z - (5/2) * perks.hitWindow)
    (hz3 : noteZ noteSpeed time note < PLAYER_Z + (5/2) * perks.hitWindow * (1/2))
    (hr : (reaches hands.left (noteWorldPos noteSpeed time note) (hitRadiusOf perks)
        || reaches hands.right (noteWorldPos noteSpeed time note) (hitRadiusOf perks)) = true) :
    resolveNote perks isUlt hands noteSpeed time note
      = NoteResolution.hit ScoreTier.GOLD_STAR := by
  have key : ∀ a b : Bool, (a || b) = true → (a || (!a && b)) = true := by decide
  unfold resolveNote
  rw [if_neg (by simp [h1, h2]), if_neg hz1, if_pos ⟨hz2, hz3⟩, if_pos hg]
  cases note.type
  · simp only [correctHand, wrongHand]
    rw [if_pos (key _ _ hr)]
  · simp only [correctHand, wrongHand]
    rw [if_pos (key _ _ (by rw [Bool.or_comm] at hr; exact hr))]

unseal Rat.add Rat.mul Rat.inv Rat.sub Rat.ofScientific in
/-- Claim C7, witness: a gold-star note at the player plane requiring
the left hand is cut by the right hand at rest (zero velocity) and
still resolves GOLD_STAR. -/
theorem gold_star_any_hand_witness :
    resolveNote stdPerks false
      { left := none, right := some ⟨-2/5, 8/5, 0⟩,
        leftVelocity := ⟨0, 0, 0⟩, rightVelocity := ⟨0, 0, 0⟩ }
      14 0
      { id := "gold-0", time := 0, lineIndex := 1, lineLayer := 1,
        type := HandType.left, cutDirection := CutDirection.any, isGoldStar := true }
      = NoteResolution.hit ScoreTier.GOLD_STAR :=
  gold_star_any_hand stdPerks false
    { left := none, right := some ⟨-2/5, 8/5, 0⟩,
      leftVelocity := ⟨0, 0, 0⟩, rightVelocity := ⟨0, 0, 0⟩ }
    14 0
    { id := "gold-0", time := 0, lineIndex := 1, lineLayer := 1,
      type := HandType.left, cutDirection := CutDirection.any, isGoldStar := true }
    (by decide) (by decide) (by decide) (by decide) (by decide) (by decide) (by decide)

/-- Claim C8: for an active unresolved normal note inside the hit
window, if the correct hand is out of radius and the wrong hand is in
radius, the note resolves as a WRONG_SABER hit (it is not left
unresolved); the WRONG_SABER tier awards exactly 0 points and 0 coins
and applies the −5 health penalty (clamped to [0, 100]); if the correct
hand is within radius, the resolution is computed from the correct
hand's state — whatever the wrong hand does — and its tier is never
WRONG_SABER. -/
theorem wrong_saber_penalty (perks : Perks) (isUlt : Bool) (hands : HandPositions)
    (noteSpeed time : ℚ) (note : NoteData)
    (h1 : note.hit = false) (h2 : note.missed = false) (hg : note.isGoldStar = false)
    (hz1 : ¬(noteZ noteSpeed time note > MISS_Z))
    (hz2 : noteZ noteSpeed time note > PLAYER_Z - (5/2) * perks.hitWindow)
    (hz3 : noteZ noteSpeed time note < PLAYER_Z + (5/2) * perks.hitWindow * (1/2)) :
    (reaches (correctHand hands note.type) (noteWorldPos noteSpeed time note)
        (hitRadiusOf perks) = false →
      reaches (wrongHand hands note.type) (noteWorldPos noteSpeed time note)
        (hitRadiusOf perks) = true →
      resolveNote perks isUlt hands noteSpeed time note
        = NoteResolution.hit ScoreTier.WRONG_SABER) ∧
    (∀ (cfg : DiffConfig) (s : SessionState),
      (handleNoteHit perks cfg s ScoreTier.WRONG_SABER).score = s.score ∧
      (handleNoteHit perks cfg s ScoreTier.WRONG_SABER).coins = s.coins ∧
      (handleNoteHit perks cfg s ScoreTier.WRONG_SABER).health
        = min 100 (max 0 (s.health - 5))) ∧
    (∀ p : Vec3, correctHand hands note.type = some p →
      reaches (correctHand hands note.type) (noteWorldPos noteSpeed time note)
        (hitRadiusOf perks) = true →
      resolveNote perks isUlt hands noteSpeed time note
        = NoteResolution.hit (computeTier isUlt note.cutDirection
            (correctVel hands note.type)
            (planarDistSq p (noteWorldPos noteSpeed time note)) (hitRadiusOf perks))) ∧
    (∀ (b : Bool) (cd : CutDirection) (v : Vec3) (dq r : ℚ),
      computeTier b cd v dq r ≠ ScoreTier.WRONG_SABER) := by
  refine ⟨?_, ?_, ?_, ?_⟩
  · intro hc hw
    unfold resolveNote
    rw [if_neg (by simp [h1, h2]), if_neg hz1, if_pos ⟨hz2, hz3⟩,
      if_neg (by simp [hg]), if_neg (by simp [hc]), if_pos (by simp [hc, hw])]
  · intro cfg s
    refine ⟨?_, ?_, ?_⟩
    · unfold handleNoteHit hitPoints tierBase
      norm_num
    · unfold handleNoteHit hitCoins tierBase
      norm_num
    · unfold handleNoteHit tierBase
      norm_num
      ring_nf
  · intro p hp hc
    unfold resolveNote
    rw [if_neg (by simp [h1, h2]), if_neg hz1, if_pos ⟨hz2, hz3⟩,
      if_neg (by simp [hg]), if_pos hc, hp]
  · intro b cd v dq r
    unfold computeTier
    dsimp only
    split_ifs <;> decide

unseal Rat.add Rat.mul Rat.inv Rat.sub Rat.ofScientific in
/-- Claim C8, witness: a normal note requiring the left hand, with only
the right hand at its position, resolves WRONG_SABER, and the
WRONG_SABER hit on MEDIUM from the fresh session awards no points and
no coins and costs 5 health. -/
theorem wrong_saber_penalty_witness :
    resolveNote stdPerks false
      { left := none, right := some ⟨-2/5, 8/5, 0⟩,
        leftVelocity := ⟨0, 0, 0⟩, rightVelocity := ⟨0, -3, 0⟩ }
      14 0
      { id := "note-0", time := 0, lineIndex := 1, lineLayer := 1,
        type := HandType.left, cutDirection := CutDirection.down }
      = NoteResolution.hit ScoreTier.WRONG_SABER ∧
    (handleNoteHit stdPerks (DIFFICULTY_CONFIG Difficulty.medium)
      freshSession ScoreTier.WRONG_SABER).score = freshSession.score ∧
    (handleNoteHit stdPerks (DIFFICULTY_CONFIG Difficulty.medium)
      freshSession ScoreTier.WRONG_SABER).coins = freshSession.coins ∧
    (handleNoteHit stdPerks (DIFFICULTY_CONFIG Difficulty.medium)
      freshSession ScoreTier.WRONG_SABER).health
      = min 100 (max 0 (freshSession.health - 5)) :=
  ⟨(wrong_saber_penalty stdPerks false
      { left := none, right := some ⟨-2/5, 8/5, 0⟩,
        leftVelocity := ⟨0, 0, 0⟩, rightVelocity := ⟨0, -3, 0⟩ }
      14 0
      { id := "note-0", time := 0, lineIndex := 1, lineLayer := 1,
        type := HandType.left, cutDirection := CutDirection.down }
      (by decide) (by decide) (by decide) (by decide) (by decide) (by decide)).1
      (by decide) (by decide),
    (wrong_saber_penalty stdPerks false
      { left := none, right := some ⟨-2/5, 8/5, 0⟩,
        leftVelocity := ⟨0, 0, 0⟩, rightVelocity := ⟨0, -3, 0⟩ }
      14 0
      { id := "note-0", time := 0, lineIndex := 1, lineLayer := 1,
        type := HandType.left, cutDirection := CutDirection.down }
      (by decide) (by decide) (by decide) (by decide) (by decide) (by decide)).2.1
      (DIFFICULTY_CONFIG Difficulty.medium) freshSession⟩

/-- The sub-beat block never touches the `generatedNoteCount` counter. -/
lemma subBeatNotes_count (rng : ℕ → ℚ) (i : ℕ) (st : GenState) :
    (subBeatNotes rng i st).generatedNoteCount = st.generatedNoteCount := by
  simp only [subBeatNotes, takeRand, pushNote]
  split <;> (try dsimp only) <;> split <;> (try dsimp only) <;> split <;> rfl

/-- The gold-star emission never touches the counter. -/
lemma goldBeat_count (rng : ℕ → ℚ) (i : ℕ) (st : GenState) :
    (goldBeat rng i st).generatedNoteCount = st.generatedNoteCount := rfl

/-- The phase logic never touches the counter. -/
lemma mainBeatNotes_count (d : Difficulty) (rng : ℕ → ℚ) (i : ℕ) (st : GenState) :
    (mainBeatNotes d rng i st).generatedNoteCount = st.generatedNoteCount := by
  simp only [mainBeatNotes, takeRand, pushNote]
  repeat' split
  all_goals rfl

/-- The counter after the optional sub-beat block of a surviving beat. -/
lemma stage1_count (d : Difficulty) (rng : ℕ → ℚ) (i : ℕ) (st : GenState) :
    (if d = Difficulty.impossible then subBeatNotes rng i (takeRand rng st).2
      else (takeRand rng st).2).generatedNoteCount = st.generatedNoteCount := by
  split
  · rw [subBeatNotes_count]
    rfl
  · rfl


/-- Claim C9 as amended: the gold-star check runs on a counter that is
incremented once per surviving (non-skipped) beat iteration, not once
per emitted note.  On every beat that survives the skip draw the
counter goes up by exactly one, and when the incremented counter is a
multiple of 50 the beat emits exactly one gold-star note after the
(IMPOSSIBLE-only) sub-beat burst, in place of the phase-logic notes. -/
theorem gold_star_beat_counter (d : Difficulty) (rng : ℕ → ℚ) (i : ℕ) (st : GenState)
    (hskip : ¬((takeRand rng st).1 < skipRate d)) :
    (genBeat d rng i st).generatedNoteCount = st.generatedNoteCount + 1 ∧
    ((st.generatedNoteCount + 1) % 50 = 0 →
      ∃ g : NoteData, (genBeat d rng i st).notes
          = (if d = Difficulty.impossible then subBeatNotes rng i (takeRand rng st).2
              else (takeRand rng st).2).notes ++ [g]
        ∧ g.isGoldStar = true) := by
  constructor
  · unfold genBeat
    rw [if_neg hskip]
    dsimp only
    split
    all_goals split
    all_goals
      first
        | (rw [goldBeat_count, subBeatNotes_count])
        | (rw [mainBeatNotes_count, subBeatNotes_count])
        | rw [goldBeat_count]
        | rw [mainBeatNotes_count]
    all_goals try rfl
  · intro hmod
    unfold genBeat
    rw [if_neg hskip]
    dsimp only
    rw [stage1_count, if_pos hmod]
    exact ⟨_, rfl, rfl⟩

unseal Rat.add Rat.mul Rat.inv Rat.sub Rat.ofScientific in
/-- Claim C9 amended, witness: a surviving MEDIUM beat whose counter
reaches 50 emits one gold-star note. -/
theorem gold_star_beat_counter_witness :
    (genBeat Difficulty.medium halfRng 4
        { notes := [], idCount := 0, generatedNoteCount := 49, randIdx := 0 }).generatedNoteCount
      = 49 + 1 ∧
    ((49 + 1) % 50 = 0 →
      ∃ g : NoteData,
        (genBeat Difficulty.medium halfRng 4
            { notes := [], idCount := 0, generatedNoteCount := 49, randIdx := 0 }).notes
          = (if Difficulty.medium = Difficulty.impossible then
              subBeatNotes halfRng 4
                (takeRand halfRng
                  { notes := [], idCount := 0, generatedNoteCount := 49, randIdx := 0 }).2
              else (takeRand halfRng
                { notes := [], idCount := 0, generatedNoteCount := 49, randIdx := 0 }).2).notes
            ++ [g]
          ∧ g.isGoldStar = true) :=
  gold_star_beat_counter Difficulty.medium halfRng 4
    { notes := [], idCount := 0, generatedNoteCount := 49, randIdx := 0 } (by decide)

set_option maxRecDepth 40000 in
unseal Rat.add Rat.mul Rat.inv Rat.sub Rat.ofScientific in
/-- Claim C9, counterexample.  The claim says every 50th generated note
(a fixed modulus on the count of generated notes) is a gold-star note.
On the code the counter `generatedNoteCount` is incremented once per
surviving beat, not once per emitted note, so on IMPOSSIBLE — where
every surviving beat also emits sub-beat burst notes before the check —
the notes outrun the counter: under the constant one-half oracle the
50th emitted note of the chart (index 49, emitted on the 25th surviving
beat, counter 25) is a plain phase note, not a gold-star note. -/
theorem fiftieth_note_counterexample :
    ((chartNotes Difficulty.impossible halfRng)[49]?).map NoteData.isGoldStar
      = some false := by
  rw [chartNotes_imp_half_get49]
  decide
